import Mathlib

/-!
# Verification of the FAT12 file-system reader (FATfs.c / HAL.c)

Shallow embedding of the FAT12 reader. Machine integers are modelled as
`Nat` with explicit `% 2^w` where the C code stores into a fixed-width
variable and the value could exceed the width. Byte arrays (the FAT table,
disk contents, read buffers) are modelled as functions `Nat → Nat` whose
values are the bytes (assumed `< 256` where a theorem needs it). The
block-reader (HAL) is modelled as an environment: a function giving the
byte at each absolute offset of the backing image, and a function giving
the number of bytes an `fread` at a given offset for a given sector count
actually returns. `calloc` is assumed to succeed (allocation failure only
triggers the error callback and is orthogonal to the properties below).
-/

namespace FATfs

/-- `#define KMC_DEFAULT_SECTOR_SIZE 512` from HAL.h. -/
def KMC_DEFAULT_SECTOR_SIZE : Nat := 512

/-- HAL.c `kmc_update_sector_size`: takes the requested `sector_size` and the
current stored size `s_sectorSize`; returns the C result (1 success,
0 failure) together with the stored sector size after the call.
The C test is `0 == (sector_size % KMC_DEFAULT_SECTOR_SIZE)`. -/
def kmc_update_sector_size (sector_size s_sectorSize : Nat) : Nat × Nat :=
  if sector_size % KMC_DEFAULT_SECTOR_SIZE = 0 then
    (1, sector_size)
  else
    (0, s_sectorSize)

/-- FATfs.c `get_fat_entry_next`: decode the packed 12-bit FAT entry at
index `n` from the byte array `s_fat_table`.  Even `n`:
`(s_fat_table[(3*n)/2+1] & 0x0F) << 8 | s_fat_table[(3*n)/2]`; odd `n`:
`s_fat_table[(3*n)/2+1] << 4 | (s_fat_table[(3*n)/2] & 0xF0) >> 4`.
The result is stored in a `uint16_t`, hence the `% 2 ^ 16`
(an identity whenever the table holds bytes). -/
def get_fat_entry_next (s_fat_table : Nat → Nat) (n : Nat) : Nat :=
  if n % 2 = 0 then
    (((s_fat_table (3 * n / 2 + 1) &&& 0x0F) <<< 8) ||| s_fat_table (3 * n / 2)) % 2 ^ 16
  else
    ((s_fat_table (3 * n / 2 + 1) <<< 4) ||| ((s_fat_table (3 * n / 2) &&& 0xF0) >>> 4)) % 2 ^ 16

/-- The 3-byte packing of two 12-bit FAT entries `a` (even slot) and `b`
(odd slot), as described by the layout that `get_fat_entry_next` decodes:
byte 0 holds the low 8 bits of `a`, byte 1 holds the high 4 bits of `a`
in its low nibble and the low 4 bits of `b` in its high nibble, byte 2
holds the high 8 bits of `b`. -/
def fat12_pack (a b : Nat) : Nat × Nat × Nat :=
  (a % 256, a / 256 + (b % 16) * 16, b / 16)

/-- A FAT table whose pair of entries `2*k, 2*k+1` is the packing of
`a` and `b`, all other bytes zero. -/
def fat12_pack_table (k a b : Nat) : Nat → Nat := fun i =>
  if i = 3 * k then (fat12_pack a b).1
  else if i = 3 * k + 1 then (fat12_pack a b).2.1
  else if i = 3 * k + 2 then (fat12_pack a b).2.2
  else 0

set_option maxRecDepth 4000 in
/-- For bytes, `x &&& 0x0F` is `x % 16`. -/
theorem land_15_eq_mod (x : Nat) (hx : x < 256) : x &&& 15 = x % 16 := by
  revert x hx
  decide

set_option maxRecDepth 4000 in
/-- For bytes, `(x &&& 0xF0) >>> 4` is `x / 16`. -/
theorem land_240_shift_eq_div (x : Nat) (hx : x < 256) : (x &&& 240) >>> 4 = x / 16 := by
  revert x hx
  decide

set_option maxRecDepth 100000 in
/-- A 4-bit value shifted left by 8 or-ed with a byte is just the sum. -/
theorem shift8_or_eq_add (m : Nat) (hm : m < 16) (r : Nat) (hr : r < 256) :
    (m <<< 8) ||| r = m * 256 + r := by
  revert m hm r hr
  decide

set_option maxRecDepth 100000 in
/-- A byte shifted left by 4 or-ed with a 4-bit value is just the sum. -/
theorem shift4_or_eq_add (m : Nat) (hm : m < 256) (r : Nat) (hr : r < 16) :
    (m <<< 4) ||| r = m * 16 + r := by
  revert m hm r hr
  decide

/-- Arithmetic form of the even-index decode expression. -/
theorem decode_even_eq (x y : Nat) (hx : x < 256) (hy : y < 256) :
    ((x &&& 0x0F) <<< 8) ||| y = x % 16 * 256 + y := by
  rw [land_15_eq_mod x hx, shift8_or_eq_add (x % 16) (by omega) y hy]

/-- Arithmetic form of the odd-index decode expression. -/
theorem decode_odd_eq (x y : Nat) (hx : x < 256) (hy : y < 256) :
    (x <<< 4) ||| ((y &&& 0xF0) >>> 4) = x * 16 + y / 16 := by
  rw [land_240_shift_eq_div y hy, shift4_or_eq_add x hx (y / 16) (by omega)]

/-- C1: for an in-bounds FAT table of bytes, `get_fat_entry_next` computes the
documented even/odd nibble formulas, and packing two 12-bit values `a`, `b`
into three bytes per this layout and decoding entries `2*k` and `2*k+1`
round-trips exactly. -/
theorem c1_fat_entry_formulas_and_roundtrip
    (fat : Nat → Nat) (hbytes : ∀ i, fat i < 256) (n k a b : Nat)
    (ha : a < 4096) (hb : b < 4096) :
    (n % 2 = 0 →
      get_fat_entry_next fat n =
        ((fat (3 * n / 2 + 1) &&& 0x0F) <<< 8) ||| fat (3 * n / 2)) ∧
    (n % 2 = 1 →
      get_fat_entry_next fat n =
        (fat (3 * n / 2 + 1) <<< 4) ||| ((fat (3 * n / 2) &&& 0xF0) >>> 4)) ∧
    get_fat_entry_next (fat12_pack_table k a b) (2 * k) = a ∧
    get_fat_entry_next (fat12_pack_table k a b) (2 * k + 1) = b := by
  have t0 : fat12_pack_table k a b (3 * k) = a % 256 := by
    unfold fat12_pack_table fat12_pack
    rw [if_pos rfl]
  have t1 : fat12_pack_table k a b (3 * k + 1) = a / 256 + b % 16 * 16 := by
    unfold fat12_pack_table fat12_pack
    rw [if_neg (by omega), if_pos rfl]
  have t2 : fat12_pack_table k a b (3 * k + 1 + 1) = b / 16 := by
    unfold fat12_pack_table fat12_pack
    rw [if_neg (by omega), if_neg (by omega), if_pos (by omega)]
  refine ⟨?_, ?_, ?_, ?_⟩
  · intro hn
    unfold get_fat_entry_next
    rw [if_pos hn,
        decode_even_eq _ _ (hbytes (3 * n / 2 + 1)) (hbytes (3 * n / 2))]
    have h1 := hbytes (3 * n / 2)
    omega
  · intro hn
    unfold get_fat_entry_next
    rw [if_neg (by omega),
        decode_odd_eq _ _ (hbytes (3 * n / 2 + 1)) (hbytes (3 * n / 2))]
    have h1 := hbytes (3 * n / 2 + 1)
    have h2 := hbytes (3 * n / 2)
    omega
  · unfold get_fat_entry_next
    rw [if_pos (by omega : 2 * k % 2 = 0),
        show 3 * (2 * k) / 2 = 3 * k from by omega, t0, t1,
        decode_even_eq _ _ (by omega) (by omega)]
    omega
  · unfold get_fat_entry_next
    rw [if_neg (by omega : ¬(2 * k + 1) % 2 = 0),
        show 3 * (2 * k + 1) / 2 = 3 * k + 1 from by omega, t1, t2,
        decode_odd_eq _ _ (by omega) (by omega)]
    omega

/-- C1 witness: concrete instance of the round-trip at `k = 1`,
`a = 0xABC`, `b = 0x123`, and of the even formula at `n = 4`. -/
theorem c1_fat_entry_formulas_and_roundtrip_witness :
    get_fat_entry_next (fat12_pack_table 1 2748 291) 2 = 2748 ∧
    get_fat_entry_next (fat12_pack_table 1 2748 291) 3 = 291 := by
  have h := c1_fat_entry_formulas_and_roundtrip
    (fat12_pack_table 1 2748 291)
    (by
      intro i
      unfold fat12_pack_table fat12_pack
      split
      · decide
      · split
        · decide
        · split
          · decide
          · decide)
    4 1 2748 291 (by decide) (by decide)
  exact ⟨h.2.2.1, h.2.2.2⟩

/-- FATfs.h `ERROR_CODE`. -/
inductive ERROR_CODE where
  | ERROR_OPENING_FILE
  | BOOT_SECTOR_READ_ERROR
  | DYNAMIC_ALLOCATON_ERROR
  | ERROR_UPDATING_SECTOR_SIZE
  | MULTIPLE_SECTOR_READ_ERROR
  | CLUSTER_SIZE_ERROR
  | ERROR_READING_ROOT_DIRECTORY
  | ERROR_READING_SUB_DIRECTORY
deriving DecidableEq, Repr

/-- FATfs.h `fatfs_bootsector_struct_t`. -/
structure fatfs_bootsector_struct_t where
  bytes_per_sector : Nat
  sectors_per_cluster : Nat
  Number_of_FATs : Nat
  Maximum_number_of_root_directory_entries : Nat
  Total_sector_count : Nat
  Sectors_per_FAT : Nat
deriving DecidableEq, Repr

/-- FATfs.c `parse_bootsector`: little-endian extraction of the boot-sector
fields from the sector-0 buffer (`memcpy` of 2 bytes into a `uint16_t` on a
little-endian host; `sectors_per_cluster` and `Number_of_FATs` are single
bytes, the upper byte of `sectors_per_cluster` stays 0). -/
def parse_bootsector (buff : Nat → Nat) : fatfs_bootsector_struct_t :=
  { bytes_per_sector := buff 11 + 256 * buff 12,
    sectors_per_cluster := buff 13,
    Number_of_FATs := buff 16,
    Maximum_number_of_root_directory_entries := buff 17 + 256 * buff 18,
    Total_sector_count := buff 19 + 256 * buff 20,
    Sectors_per_FAT := buff 22 + 256 * buff 23 }

/-- The four derived values fatfs_init stores on the success path:
`Cluster_size` (a `uint32_t`) and the three `uint16_t` statics
`num_cluster_in_root_directory`, `cluster_started_in_physical_of_rootdirectory`
and `Cluster_starts_in_physical_of_the_data_area`, with the C store-width
wraps made explicit (FATfs.c lines 237-245). -/
structure fatfs_geometry where
  Cluster_size : Nat
  num_cluster_in_root_directory : Nat
  cluster_started_in_physical_of_rootdirectory : Nat
  Cluster_starts_in_physical_of_the_data_area : Nat
deriving DecidableEq, Repr

/-- The geometry computation of `fatfs_init` (FATfs.c lines 237-245);
line 245 reuses the already-stored (wrapped) root-directory cluster count. -/
def fatfs_derive_geometry (bs : fatfs_bootsector_struct_t) : fatfs_geometry :=
  { Cluster_size := bs.sectors_per_cluster * bs.bytes_per_sector % 2 ^ 32,
    num_cluster_in_root_directory :=
      bs.Maximum_number_of_root_directory_entries * 32 / bs.bytes_per_sector % 2 ^ 16,
    cluster_started_in_physical_of_rootdirectory :=
      (bs.Number_of_FATs * bs.Sectors_per_FAT + 1) % 2 ^ 16,
    Cluster_starts_in_physical_of_the_data_area :=
      (bs.Number_of_FATs * bs.Sectors_per_FAT +
        bs.Maximum_number_of_root_directory_entries * 32 / bs.bytes_per_sector % 2 ^ 16 +
        1) % 2 ^ 16 }

/-- Environment of one `fatfs_init` run: whether `kmc_init` (fopen) succeeds,
the byte count returned by `kmc_read_sector(0, buff)` together with the
delivered sector-0 bytes, and the byte count returned by the
`kmc_read_multi_sector` call inside `get_fat_table`. -/
structure InitEnv where
  kmc_init_ok : Bool
  boot_read_count : Nat
  boot : Nat → Nat
  fat_read_count : Nat

/-- Result of `fatfs_init`: the returned `Cluster_size`, the error-callback
invocations in order, and the values of the geometry statics after the call
(they stay at their zero-initialised values on every failure path). -/
structure InitResult where
  Cluster_size : Nat
  errors : List ERROR_CODE
  geometry : fatfs_geometry
deriving DecidableEq, Repr

/-- FATfs.c `fatfs_init` (together with the `get_fat_table` body it calls):
open, read sector 0, parse, update the HAL sector size, load the FAT table
(reporting `MULTIPLE_SECTOR_READ_ERROR` on a short read without stopping),
then compute the derived geometry.  `calloc` is assumed to succeed. -/
def fatfs_init (env : InitEnv) : InitResult :=
  if env.kmc_init_ok then
    if env.boot_read_count ≠ KMC_DEFAULT_SECTOR_SIZE then
      { Cluster_size := 0, errors := [ERROR_CODE.BOOT_SECTOR_READ_ERROR],
        geometry := ⟨0, 0, 0, 0⟩ }
    else
      let bs := parse_bootsector env.boot
      if (kmc_update_sector_size bs.bytes_per_sector KMC_DEFAULT_SECTOR_SIZE).1 ≠ 0 then
        let fat_errors :=
          if env.fat_read_count ≠ bs.Sectors_per_FAT * bs.bytes_per_sector then
            [ERROR_CODE.MULTIPLE_SECTOR_READ_ERROR]
          else []
        let g := fatfs_derive_geometry bs
        { Cluster_size := g.Cluster_size, errors := fat_errors, geometry := g }
      else
        { Cluster_size := 0, errors := [ERROR_CODE.ERROR_UPDATING_SECTOR_SIZE],
          geometry := ⟨0, 0, 0, 0⟩ }
  else
    { Cluster_size := 0, errors := [ERROR_CODE.ERROR_OPENING_FILE],
      geometry := ⟨0, 0, 0, 0⟩ }

/-- Sector-0 bytes of a standard 1.44MB floppy boot sector (the fields
`parse_bootsector` reads: 512 bytes per sector, 1 sector per cluster,
2 FATs, 224 root entries, 2880 total sectors, 9 sectors per FAT). -/
def floppy_boot : Nat → Nat := fun i =>
  if i = 11 then 0 else if i = 12 then 2
  else if i = 13 then 1
  else if i = 16 then 2
  else if i = 17 then 224 else if i = 18 then 0
  else if i = 19 then 64 else if i = 20 then 11
  else if i = 22 then 9 else if i = 23 then 0
  else 0

/-- C2: `fatfs_init`'s geometry derivation satisfies
cluster-size = sectors-per-cluster × bytes-per-sector,
root-dir-cluster-count = (max-root-entries × 32) / bytes-per-sector
(truncating division), root-dir-start = FAT-count × sectors-per-FAT + 1,
data-area-start = root-dir-start + root-dir-cluster-count, whenever the
values fit their store widths; and on the standard 1.44MB floppy geometry
it yields exactly 512 / 14 / 19 / 33. -/
theorem c2_derived_geometry
    (bs : fatfs_bootsector_struct_t)
    (hbps : bs.bytes_per_sector < 2 ^ 16) (hspc : bs.sectors_per_cluster < 2 ^ 16)
    (hsum : bs.Number_of_FATs * bs.Sectors_per_FAT +
      bs.Maximum_number_of_root_directory_entries * 32 / bs.bytes_per_sector + 1 < 2 ^ 16) :
    ((fatfs_derive_geometry bs).Cluster_size =
        bs.sectors_per_cluster * bs.bytes_per_sector ∧
      (fatfs_derive_geometry bs).num_cluster_in_root_directory =
        bs.Maximum_number_of_root_directory_entries * 32 / bs.bytes_per_sector ∧
      (fatfs_derive_geometry bs).cluster_started_in_physical_of_rootdirectory =
        bs.Number_of_FATs * bs.Sectors_per_FAT + 1 ∧
      (fatfs_derive_geometry bs).Cluster_starts_in_physical_of_the_data_area =
        (fatfs_derive_geometry bs).cluster_started_in_physical_of_rootdirectory +
          (fatfs_derive_geometry bs).num_cluster_in_root_directory) ∧
    fatfs_derive_geometry ⟨512, 1, 2, 224, 2880, 9⟩ = ⟨512, 14, 19, 33⟩ ∧
    fatfs_init ⟨true, 512, floppy_boot, 9 * 512⟩ =
      ⟨512, [], ⟨512, 14, 19, 33⟩⟩ := by
  have hmul : bs.sectors_per_cluster * bs.bytes_per_sector ≤ 65535 * 65535 :=
    Nat.mul_le_mul (by omega) (by omega)
  have h2 : bs.Maximum_number_of_root_directory_entries * 32 / bs.bytes_per_sector % 2 ^ 16
      = bs.Maximum_number_of_root_directory_entries * 32 / bs.bytes_per_sector :=
    Nat.mod_eq_of_lt (by omega)
  have h3 : (bs.Number_of_FATs * bs.Sectors_per_FAT + 1) % 2 ^ 16
      = bs.Number_of_FATs * bs.Sectors_per_FAT + 1 :=
    Nat.mod_eq_of_lt (by omega)
  refine ⟨?_, by decide, by decide⟩
  simp only [fatfs_derive_geometry]
  refine ⟨Nat.mod_eq_of_lt (by omega), h2, h3, ?_⟩
  rw [h2, h3, Nat.mod_eq_of_lt (by omega)]
  omega

/-- C2 witness: the general equations instantiated at the floppy geometry. -/
theorem c2_derived_geometry_witness :
    (fatfs_derive_geometry ⟨512, 1, 2, 224, 2880, 9⟩).num_cluster_in_root_directory = 14 ∧
    (fatfs_derive_geometry ⟨512, 1, 2, 224, 2880, 9⟩).cluster_started_in_physical_of_rootdirectory = 19 ∧
    (fatfs_derive_geometry ⟨512, 1, 2, 224, 2880, 9⟩).Cluster_starts_in_physical_of_the_data_area = 33 := by
  have h := c2_derived_geometry ⟨512, 1, 2, 224, 2880, 9⟩ (by decide) (by decide) (by decide)
  have hn : (fatfs_derive_geometry ⟨512, 1, 2, 224, 2880, 9⟩).num_cluster_in_root_directory
      = 14 := by
    rw [h.1.2.1]
    decide
  have hr : (fatfs_derive_geometry ⟨512, 1, 2, 224, 2880, 9⟩).cluster_started_in_physical_of_rootdirectory
      = 19 := by
    rw [h.1.2.2.1]
    decide
  refine ⟨hn, hr, ?_⟩
  rw [h.1.2.2.2, hn, hr]

/-- C9 counterexample: the claim says `set_block_size(0)` must fail and leave
the stored size unchanged; the code's test `0 == (0 % 512)` passes, so the
call succeeds and stores 0. -/
theorem c9_counterexample :
    kmc_update_sector_size 0 7 = (1, 0) ∧ kmc_update_sector_size 0 7 ≠ (0, 7) := by
  decide

/-- C9 (amended): `kmc_update_sector_size n` succeeds (returns 1 and stores
`n`) if and only if `n` is a multiple of 512 — including `n = 0`; for any
other `n` it fails and leaves the stored size unchanged. -/
theorem c9_update_sector_size_iff_multiple (n s : Nat) :
    ((kmc_update_sector_size n s).1 = 1 ↔ ∃ k, n = 512 * k) ∧
    (n % 512 = 0 → kmc_update_sector_size n s = (1, n)) ∧
    (n % 512 ≠ 0 → kmc_update_sector_size n s = (0, s)) := by
  unfold kmc_update_sector_size KMC_DEFAULT_SECTOR_SIZE
  by_cases h : n % 512 = 0
  · rw [if_pos h]
    exact ⟨⟨fun _ => ⟨n / 512, by omega⟩, fun _ => rfl⟩,
      fun _ => rfl, fun hc => absurd h hc⟩
  · rw [if_neg h]
    refine ⟨⟨fun h1 => absurd h1 (by simp), fun hk => ?_⟩,
      fun hc => absurd hc h, fun _ => rfl⟩
    obtain ⟨k, hk⟩ := hk
    exact absurd (by omega : n % 512 = 0) h

/-- C9 witness: a positive multiple of 512 succeeds and stores the new size;
a non-multiple fails and keeps the old size. -/
theorem c9_update_sector_size_iff_multiple_witness :
    kmc_update_sector_size 1024 512 = (1, 1024) ∧
    kmc_update_sector_size 100 512 = (0, 512) :=
  ⟨(c9_update_sector_size_iff_multiple 1024 512).2.1 (by decide),
   (c9_update_sector_size_iff_multiple 100 512).2.2 (by decide)⟩

/-- C8 counterexample: with a good boot sector but a short FAT-table read,
the claim says the mount aborts and returns cluster size 0; the code merely
reports `MULTIPLE_SECTOR_READ_ERROR` through the callback and then computes
and returns the nonzero cluster size (512 here) anyway. -/
theorem c8_counterexample :
    (fatfs_init ⟨true, 512, floppy_boot, 0⟩).errors =
      [ERROR_CODE.MULTIPLE_SECTOR_READ_ERROR] ∧
    (fatfs_init ⟨true, 512, floppy_boot, 0⟩).Cluster_size = 512 := by
  decide

/-- C8 (amended): if the FAT-table read is short (and opening, the boot-sector
read and the sector-size update succeeded), `fatfs_init` reports
`MultiSectorReadError` through the callback but does not abort: it still
computes the geometry and returns the derived cluster size. -/
theorem c8_fat_short_read_reported_but_mount_continues
    (env : InitEnv) (h1 : env.kmc_init_ok = true)
    (h2 : env.boot_read_count = KMC_DEFAULT_SECTOR_SIZE)
    (h3 : (parse_bootsector env.boot).bytes_per_sector % KMC_DEFAULT_SECTOR_SIZE = 0)
    (h4 : env.fat_read_count ≠
      (parse_bootsector env.boot).Sectors_per_FAT *
        (parse_bootsector env.boot).bytes_per_sector) :
    fatfs_init env =
      { Cluster_size := (fatfs_derive_geometry (parse_bootsector env.boot)).Cluster_size,
        errors := [ERROR_CODE.MULTIPLE_SECTOR_READ_ERROR],
        geometry := fatfs_derive_geometry (parse_bootsector env.boot) } := by
  unfold fatfs_init
  rw [if_pos h1, if_neg (by simp [h2]), if_pos]
  · rw [if_pos h4]
  · unfold kmc_update_sector_size
    rw [if_pos h3]
    simp

/-- C8 witness: the amended behaviour at a concrete environment (floppy boot
sector, FAT read returning 1 byte instead of 4608). -/
theorem c8_fat_short_read_reported_but_mount_continues_witness :
    fatfs_init ⟨true, 512, floppy_boot, 1⟩ =
      ⟨512, [ERROR_CODE.MULTIPLE_SECTOR_READ_ERROR], ⟨512, 14, 19, 33⟩⟩ :=
  (c8_fat_short_read_reported_but_mount_continues ⟨true, 512, floppy_boot, 1⟩
    rfl rfl (by decide) (by decide)).trans (by decide)

/-- FATfs.h `fatfs_directory_entry_list_struct_t`, as filled in by the two
entry-copy blocks of `fatfs_read_dir`.  Multi-byte fields are the
little-endian values the `memcpy`s produce; the 8 name and 3 extension
bytes are kept as byte lists. -/
structure fatfs_directory_entry_list_struct_t where
  File_name : List Nat
  Extension : List Nat
  Attributes : Nat
  Creation_Time : Nat
  Creation_Date : Nat
  Last_Write_Time : Nat
  Last_Write_Date : Nat
  First_Logical_Cluster : Nat
  File_Size_in_bytes : Nat
deriving DecidableEq, Repr

/-- The field extraction performed for one 32-byte directory slot at offset
`i` of the buffer (FATfs.c lines 313-323 and 397-407). -/
def decode_dir_entry (buff : Nat → Nat) (i : Nat) : fatfs_directory_entry_list_struct_t :=
  { File_name := (List.range 8).map fun j => buff (i + j),
    Extension := (List.range 3).map fun j => buff (i + 8 + j),
    Attributes := buff (i + 11),
    Creation_Time := buff (i + 14) + 256 * buff (i + 15),
    Creation_Date := buff (i + 16) + 256 * buff (i + 17),
    Last_Write_Time := buff (i + 22) + 256 * buff (i + 23),
    Last_Write_Date := buff (i + 24) + 256 * buff (i + 25),
    First_Logical_Cluster := buff (i + 26) + 256 * buff (i + 27),
    File_Size_in_bytes := buff (i + 28) + 256 * buff (i + 29)
      + 65536 * buff (i + 30) + 16777216 * buff (i + 31) }

/-- The slot offsets `i = 0, 32, 64, ...` visited by the entry-scanning
`for (i = 0; i < number_of_bytes_read; i += 32)` loop of `fatfs_read_dir`
for a buffer whose loop bound is `N`: one offset per started 32-byte slot. -/
def dir_slot_offsets (N : Nat) : List Nat :=
  (List.range ((N + 31) / 32)).map (· * 32)

/-- The body of the entry-scanning `for` loop of `fatfs_read_dir`, expressed
over the list of remaining slot offsets: a slot whose first byte is nonzero
and whose attribute byte is not `0x0F` is decoded and appended; a slot whose
first byte is `0x00` sets `i = number_of_bytes_read`, which ends the loop
(no later slot is visited); any other slot is skipped.  In the subdirectory
branch an entry whose `First_Logical_Cluster` equals
`First_Logical_Directory_of_current` is not appended; `excl` is `some` that
cluster there (lines 388-444) and `none` in the root branch
(lines 305-352), which has no such filter. -/
def scan_dir_entries (buff : Nat → Nat) (excl : Option Nat) :
    List Nat → List fatfs_directory_entry_list_struct_t
  | [] => []
  | i :: rest =>
    if buff i ≠ 0 ∧ buff (i + 11) ≠ 0x0F then
      (if excl = some (decode_dir_entry buff i).First_Logical_Cluster then []
        else [decode_dir_entry buff i]) ++ scan_dir_entries buff excl rest
    else if buff i = 0 then []
    else scan_dir_entries buff excl rest

/-- Environment of the cluster-walking loops of `fatfs_read_dir` and
`fatfs_read_file`: the geometry statics they use, the FAT table cache,
the byte at each absolute offset of the image, and the byte count a
`kmc_read_multi_sector(index, num, buff)` call actually returns. -/
structure fatfs_env where
  bytes_per_sector : Nat
  sectors_per_cluster : Nat
  Cluster_starts_in_physical_of_the_data_area : Nat
  s_fat_table : Nat → Nat
  read_count : Nat → Nat → Nat
  disk : Nat → Nat

/-- The byte offset both loops pass to `kmc_read_multi_sector` for data
cluster `c`:
`(Cluster_starts_in_physical_of_the_data_area - 2 + c) * bytes_per_sector`. -/
def cluster_offset (env : fatfs_env) (c : Nat) : Nat :=
  (env.Cluster_starts_in_physical_of_the_data_area - 2 + c) * env.bytes_per_sector

/-- The buffer contents after `calloc` plus a read of `n` bytes at `offset`:
byte `j` of the buffer is the image byte at `offset + j` for `j < n` and the
`calloc` zero otherwise. -/
def read_buffer (env : fatfs_env) (offset n : Nat) : Nat → Nat := fun j =>
  if j < n then env.disk (offset + j) else 0

/-- One iteration of the subdirectory `do`-`while` body of `fatfs_read_dir`
(lines 379-455): read the current cluster; on a full read scan its slots
(excluding entries whose first cluster equals
`First_Logical_Directory_of_current`) and step to
`get_fat_entry_next(First_Logical_Directory_of_current)`; on a short read
report `ERROR_READING_SUB_DIRECTORY` and leave
`First_Logical_Directory_of_current` unchanged. -/
def read_dir_cluster_step (env : fatfs_env) (cur : Nat) :
    List fatfs_directory_entry_list_struct_t × List ERROR_CODE × Nat :=
  let offset := cluster_offset env cur
  let n := env.read_count offset env.sectors_per_cluster
  if n = env.sectors_per_cluster * env.bytes_per_sector then
    (scan_dir_entries (read_buffer env offset n) (some cur) (dir_slot_offsets n), [],
      get_fat_entry_next env.s_fat_table cur)
  else
    ([], [ERROR_CODE.ERROR_READING_SUB_DIRECTORY], cur)

/-- The chain-control structure of the subdirectory `do`-`while` loop of
`fatfs_read_dir`, with explicit fuel: `none` means the loop has not
terminated within `fuel` iterations.  The body always runs once; the
condition `0xFF7 > First_Logical_Directory_of_current` is tested after each
body.  This definition tracks only the cluster variable, not the buffer
pointer: the C code sets `buff = NULL` after a successful iteration without
reallocating, so a real second iteration after a success passes a null
pointer to `kmc_read_multi_sector` (undefined behaviour).
`fatfs_read_dir_walk` below models that buffer state faithfully, and
`fatfs_read_dir_walk_ok_eq_loop` proves the two agree on every defined
execution that completes and produces a listing; short-read iterations
leave `buff` untouched, so runs that never take the success branch are
modelled exactly here as well. -/
def fatfs_read_dir_loop (env : fatfs_env) (cur fuel : Nat) :
    Option (List fatfs_directory_entry_list_struct_t × List ERROR_CODE) :=
  match fuel with
  | 0 => none
  | fuel + 1 =>
    let s := read_dir_cluster_step env cur
    if 0xFF7 > s.2.2 then
      (fatfs_read_dir_loop env s.2.2 fuel).map fun rest =>
        (s.1 ++ rest.1, s.2.1 ++ rest.2)
    else
      some (s.1, s.2.1)

/-- One iteration of the `do`-`while` body of `fatfs_read_file`
(lines 495-544): read the current cluster; on a full read append the raw
buffer to the cluster list and step to
`get_fat_entry_next(First_Logical_Cluster_of_current)`; on a short read do
nothing (no node is appended and the cluster variable is unchanged). -/
def read_file_cluster_step (env : fatfs_env) (cur : Nat) :
    List (List Nat) × Nat :=
  let offset := cluster_offset env cur
  let n := env.read_count offset env.sectors_per_cluster
  if n = env.bytes_per_sector * env.sectors_per_cluster then
    ([(List.range (env.sectors_per_cluster * env.bytes_per_sector)).map
        (read_buffer env offset n)],
      get_fat_entry_next env.s_fat_table cur)
  else
    ([], cur)

/-- The `do`-`while` loop of `fatfs_read_file`, with explicit fuel:
`none` means the loop has not terminated within `fuel` iterations. -/
def fatfs_read_file_loop (env : fatfs_env) (cur fuel : Nat) :
    Option (List (List Nat)) :=
  match fuel with
  | 0 => none
  | fuel + 1 =>
    let s := read_file_cluster_step env cur
    if 0xFF7 > s.2 then
      (fatfs_read_file_loop env s.2 fuel).map fun rest => s.1 ++ rest
    else
      some s.1

/-- The root branch of `fatfs_read_dir` (lines 290-369): one read of the
whole root-directory region; on a full read scan it with no exclusion
filter, on a short read report `ERROR_READING_ROOT_DIRECTORY` and produce
no list. -/
def fatfs_read_dir_root (env : fatfs_env)
    (num_cluster_in_root_directory cluster_started_in_physical_of_rootdirectory : Nat) :
    List fatfs_directory_entry_list_struct_t × List ERROR_CODE :=
  let offset := cluster_started_in_physical_of_rootdirectory * env.bytes_per_sector
  let n := env.read_count offset num_cluster_in_root_directory
  if n = env.bytes_per_sector * num_cluster_in_root_directory then
    (scan_dir_entries (read_buffer env offset n) none (dir_slot_offsets n), [])
  else
    ([], [ERROR_CODE.ERROR_READING_ROOT_DIRECTORY])

/-- C7: in every directory-buffer scan of `fatfs_read_dir` (root and
subdirectory use the same scan), a slot whose first byte is 0x00 stops the
scan at that slot: no entry is produced for it and no later slot is decoded;
in particular a buffer whose first slot starts with 0x00 contributes an empty
listing. -/
theorem c7_zero_first_byte_stops_scan
    (buff : Nat → Nat) (excl : Option Nat) (i : Nat) (rest : List Nat) (N : Nat)
    (hz : buff i = 0) (hz0 : buff 0 = 0) (hN : 0 < N) :
    scan_dir_entries buff excl (i :: rest) = [] ∧
    scan_dir_entries buff excl (dir_slot_offsets N) = [] := by
  have head : ∀ tail, scan_dir_entries buff excl (i :: tail) = [] := by
    intro tail
    unfold scan_dir_entries
    have hcond : ¬(buff i ≠ 0 ∧ buff (i + 11) ≠ 0x0F) := fun hc => hc.1 hz
    rw [if_neg hcond, if_pos hz]
  have head0 : ∀ tail, scan_dir_entries buff excl (0 :: tail) = [] := by
    intro tail
    unfold scan_dir_entries
    have hcond : ¬(buff 0 ≠ 0 ∧ buff (0 + 11) ≠ 0x0F) := fun hc => hc.1 hz0
    rw [if_neg hcond, if_pos hz0]
  refine ⟨head rest, ?_⟩
  have hk : (N + 31) / 32 = ((N + 31) / 32 - 1) + 1 := by omega
  rw [dir_slot_offsets, hk, List.range_succ_eq_map]
  simp only [List.map_cons, Nat.zero_mul]
  exact head0 _

/-- C7 witness: a buffer whose first slot's first byte is 0x00 but whose
later slots are nonzero still yields an empty listing for the whole
64-byte buffer. -/
theorem c7_zero_first_byte_stops_scan_witness :
    scan_dir_entries (fun j => if j = 0 then 0 else 65) none (dir_slot_offsets 64) = [] :=
  (c7_zero_first_byte_stops_scan (fun j => if j = 0 then 0 else 65) none 0 [32] 64
    (by decide) (by decide) (by decide)).2

/-- Relating the subdirectory scan (which filters out entries whose first
cluster equals the cluster number `c` the current iteration is scanning) to
the unfiltered scan: exactly the entries with first-cluster `c` are dropped. -/
theorem scan_dir_entries_some_eq_filter
    (buff : Nat → Nat) (c : Nat) :
    ∀ slots, scan_dir_entries buff (some c) slots =
      (scan_dir_entries buff none slots).filter
        fun e => e.First_Logical_Cluster ≠ c := by
  intro slots
  induction slots with
  | nil => rfl
  | cons i rest ih =>
    unfold scan_dir_entries
    by_cases hb : buff i ≠ 0 ∧ buff (i + 11) ≠ 0x0F
    · rw [if_pos hb, if_pos hb, List.filter_append, ih]
      congr 1
      by_cases he : (decode_dir_entry buff i).First_Logical_Cluster = c
      · have hc : (some c : Option Nat)
            = some (decode_dir_entry buff i).First_Logical_Cluster := by rw [he]
        rw [if_pos hc]
        simp [List.filter, he]
      · have hc : (some c : Option Nat)
            ≠ some (decode_dir_entry buff i).First_Logical_Cluster := by
          simp [Ne.symm he]
        rw [if_neg hc]
        simp [List.filter, he]
    · rw [if_neg hb, if_neg hb]
      by_cases hz : buff i = 0
      · rw [if_pos hz, if_pos hz]
        rfl
      · rw [if_neg hz, if_neg hz]
        exact ih

/-- A FAT table in which entry 2 points to 3 and entry 3 is the end-of-chain
marker 0xFFF (bytes 3..5 of the table encode entries 2 and 3). -/
def fat_2_to_3_table : Nat → Nat := fun i =>
  if i = 3 then 3 else if i = 4 then 240 else if i = 5 then 255 else 0

/-- Every byte of `fat_2_to_3_table` is a byte. -/
theorem fat_2_to_3_table_bytes : ∀ i, fat_2_to_3_table i < 256 := by
  intro i
  unfold fat_2_to_3_table
  split
  · decide
  · split
    · decide
    · split
      · decide
      · decide

/-- Floppy-geometry environment for a two-cluster directory chain 2 → 3:
all reads are full, cluster 2 is empty (its first slot starts with 0x00) and
cluster 3 holds one entry named "A" whose first-cluster field is 2 — the
cluster the walk started at. -/
def two_cluster_dir_env : fatfs_env :=
  { bytes_per_sector := 512, sectors_per_cluster := 1,
    Cluster_starts_in_physical_of_the_data_area := 33,
    s_fat_table := fat_2_to_3_table,
    read_count := fun _ _ => 512,
    disk := fun j => if j = 17408 then 65 else if j = 17434 then 2 else 0 }

/-- Outcome of a faithful subdirectory walk: either the listing and the
error-callback invocations the C code produces, or the undefined behaviour
the C reaches when it hands the nulled buffer pointer to a further read. -/
inductive DirWalkResult where
  | ok (entries : List fatfs_directory_entry_list_struct_t) (errors : List ERROR_CODE)
  | undefinedBehavior
deriving DecidableEq, Repr

/-- Faithful model of the subdirectory `do`-`while` of `fatfs_read_dir`
including the buffer state: `buff` is allocated once before the loop
(line 373) and set to NULL after each successful iteration (line 449)
without reallocation, so an iteration entered with `buff_null = true` passes
NULL to `kmc_read_multi_sector`, whose `fread` into NULL (HAL.c line 129) is
undefined behaviour — from that point the execution is undefined and no
listing is produced.  The walk is entered with `buff_null = false`. -/
def fatfs_read_dir_walk (env : fatfs_env) (cur : Nat) (buff_null : Bool)
    (fuel : Nat) : Option DirWalkResult :=
  match fuel with
  | 0 => none
  | fuel + 1 =>
    match buff_null with
    | true => some DirWalkResult.undefinedBehavior
    | false =>
      let offset := cluster_offset env cur
      let n := env.read_count offset env.sectors_per_cluster
      if n = env.sectors_per_cluster * env.bytes_per_sector then
        let entries := scan_dir_entries (read_buffer env offset n) (some cur)
          (dir_slot_offsets n)
        if 0xFF7 > get_fat_entry_next env.s_fat_table cur then
          (fatfs_read_dir_walk env (get_fat_entry_next env.s_fat_table cur)
              true fuel).map fun r =>
            match r with
            | DirWalkResult.ok es errs => DirWalkResult.ok (entries ++ es) errs
            | DirWalkResult.undefinedBehavior => DirWalkResult.undefinedBehavior
        else
          some (DirWalkResult.ok entries [])
      else
        if 0xFF7 > cur then
          (fatfs_read_dir_walk env cur false fuel).map fun r =>
            match r with
            | DirWalkResult.ok es errs =>
                DirWalkResult.ok es (ERROR_CODE.ERROR_READING_SUB_DIRECTORY :: errs)
            | DirWalkResult.undefinedBehavior => DirWalkResult.undefinedBehavior
        else
          some (DirWalkResult.ok [] [ERROR_CODE.ERROR_READING_SUB_DIRECTORY])

/-- A walk entered with the nulled buffer is immediately undefined
behaviour (or out of fuel): it never produces a listing. -/
theorem fatfs_read_dir_walk_nulled (env : fatfs_env) (c fuel : Nat) :
    fatfs_read_dir_walk env c true fuel = none ∨
    fatfs_read_dir_walk env c true fuel = some DirWalkResult.undefinedBehavior := by
  match fuel with
  | 0 => exact Or.inl rfl
  | fuel + 1 => exact Or.inr rfl

/-- On every defined, completed execution (the walk returns a listing without
ever reading through the nulled buffer), the buffer-free chain-control loop
agrees with the faithful walk, so statements about `fatfs_read_dir_loop` on
such executions are statements about the C program. -/
theorem fatfs_read_dir_walk_ok_eq_loop (env : fatfs_env) :
    ∀ fuel cur entries errors,
      fatfs_read_dir_walk env cur false fuel
          = some (DirWalkResult.ok entries errors) →
      fatfs_read_dir_loop env cur fuel = some (entries, errors) := by
  intro fuel
  induction fuel with
  | zero =>
    intro cur entries errors hw
    exact absurd hw (by simp [fatfs_read_dir_walk])
  | succ n ih =>
    intro cur entries errors hw
    simp only [fatfs_read_dir_walk] at hw
    simp only [fatfs_read_dir_loop]
    by_cases hfull : env.read_count (cluster_offset env cur) env.sectors_per_cluster
        = env.sectors_per_cluster * env.bytes_per_sector
    · rw [if_pos hfull] at hw
      have hstep : read_dir_cluster_step env cur =
          (scan_dir_entries
              (read_buffer env (cluster_offset env cur)
                (env.read_count (cluster_offset env cur) env.sectors_per_cluster))
              (some cur)
              (dir_slot_offsets
                (env.read_count (cluster_offset env cur) env.sectors_per_cluster)),
            [], get_fat_entry_next env.s_fat_table cur) := by
        unfold read_dir_cluster_step
        rw [if_pos hfull]
      rw [hstep]
      by_cases hnext : 0xFF7 > get_fat_entry_next env.s_fat_table cur
      · rw [if_pos hnext] at hw
        rcases fatfs_read_dir_walk_nulled env
            (get_fat_entry_next env.s_fat_table cur) n with h0 | h0 <;>
          rw [h0] at hw <;> simp at hw
      · rw [if_neg hnext] at hw
        simp only [Option.some.injEq, DirWalkResult.ok.injEq] at hw
        rw [if_neg hnext, hw.1, hw.2]
    · rw [if_neg hfull] at hw
      have hstep : read_dir_cluster_step env cur =
          ([], [ERROR_CODE.ERROR_READING_SUB_DIRECTORY], cur) := by
        unfold read_dir_cluster_step
        rw [if_neg hfull]
      rw [hstep]
      by_cases hcur : 0xFF7 > cur
      · rw [if_pos hcur] at hw
        obtain ⟨r, hr, hmap⟩ := Option.map_eq_some'.mp hw
        match r with
        | DirWalkResult.ok es errs =>
          simp only [DirWalkResult.ok.injEq] at hmap
          rw [if_pos hcur, ih cur es errs hr]
          rw [← hmap.1, ← hmap.2]
          rfl
        | DirWalkResult.undefinedBehavior => simp at hmap
      · rw [if_neg hcur] at hw
        simp only [Option.some.injEq, DirWalkResult.ok.injEq] at hw
        rw [if_neg hcur, ← hw.1, ← hw.2]

/-- C6: every subdirectory listing the program actually produces comes from
the single successful scan of the directory's starting cluster — a
continuing chain would make the next iteration read through the nulled
buffer (undefined behaviour), so no listing spanning further clusters is
ever produced — and from that scan exactly the decoded entries whose
first-cluster field equals the directory's own starting cluster are
excluded; no other entry is excluded on that ground (on a short read
no entry is decoded at all). -/
theorem c6_self_reference_filter_on_produced_listings
    (env : fatfs_env) (start fuel : Nat)
    (entries : List fatfs_directory_entry_list_struct_t) (errors : List ERROR_CODE)
    (hw : fatfs_read_dir_walk env start false fuel
      = some (DirWalkResult.ok entries errors)) :
    entries =
      if env.read_count (cluster_offset env start) env.sectors_per_cluster
          = env.sectors_per_cluster * env.bytes_per_sector then
        (scan_dir_entries
            (read_buffer env (cluster_offset env start)
              (env.read_count (cluster_offset env start) env.sectors_per_cluster))
            none
            (dir_slot_offsets
              (env.read_count (cluster_offset env start)
                env.sectors_per_cluster))).filter
          fun e => e.First_Logical_Cluster ≠ start
      else [] := by
  induction fuel generalizing entries errors with
  | zero => exact absurd hw (by simp [fatfs_read_dir_walk])
  | succ n ih =>
    simp only [fatfs_read_dir_walk] at hw
    by_cases hfull : env.read_count (cluster_offset env start) env.sectors_per_cluster
        = env.sectors_per_cluster * env.bytes_per_sector
    · rw [if_pos hfull] at hw
      rw [if_pos hfull]
      by_cases hnext : 0xFF7 > get_fat_entry_next env.s_fat_table start
      · rw [if_pos hnext] at hw
        rcases fatfs_read_dir_walk_nulled env
            (get_fat_entry_next env.s_fat_table start) n with h0 | h0 <;>
          rw [h0] at hw <;> simp at hw
      · rw [if_neg hnext] at hw
        simp only [Option.some.injEq, DirWalkResult.ok.injEq] at hw
        rw [← hw.1]
        exact scan_dir_entries_some_eq_filter _ start _
    · rw [if_neg hfull] at hw
      rw [if_neg hfull]
      by_cases hcur : 0xFF7 > start
      · rw [if_pos hcur] at hw
        obtain ⟨r, hr, hmap⟩ := Option.map_eq_some'.mp hw
        match r with
        | DirWalkResult.ok es errs =>
          simp only [DirWalkResult.ok.injEq] at hmap
          have hes := ih es errs hr
          rw [if_neg hfull] at hes
          rw [← hmap.1, hes]
        | DirWalkResult.undefinedBehavior => simp at hmap
      · rw [if_neg hcur] at hw
        simp only [Option.some.injEq, DirWalkResult.ok.injEq] at hw
        rw [← hw.1]

/-- Floppy-geometry environment whose directory at cluster 2 is a single
cluster (every FAT entry decodes to 0xFFF): its buffer holds a
self-reference entry named "A" with first-cluster 2, an entry named "B"
with first-cluster 5, and then a terminating 0x00 slot. -/
def single_cluster_dir_env : fatfs_env :=
  { bytes_per_sector := 512, sectors_per_cluster := 1,
    Cluster_starts_in_physical_of_the_data_area := 33,
    s_fat_table := fun _ => 255,
    read_count := fun _ _ => 512,
    disk := fun j =>
      if j = 16896 then 65 else if j = 16922 then 2
      else if j = 16928 then 66 else if j = 16954 then 5 else 0 }

/-- C6 witness: the produced listing of the directory at cluster 2 keeps the
entry with first-cluster 5 and excludes exactly the self-reference with
first-cluster 2. -/
theorem c6_self_reference_filter_on_produced_listings_witness :
    ([⟨[66, 0, 0, 0, 0, 0, 0, 0], [0, 0, 0], 0, 0, 0, 0, 0, 5, 0⟩] :
        List fatfs_directory_entry_list_struct_t) =
      if single_cluster_dir_env.read_count
            (cluster_offset single_cluster_dir_env 2)
            single_cluster_dir_env.sectors_per_cluster
          = single_cluster_dir_env.sectors_per_cluster *
              single_cluster_dir_env.bytes_per_sector then
        (scan_dir_entries
            (read_buffer single_cluster_dir_env
              (cluster_offset single_cluster_dir_env 2)
              (single_cluster_dir_env.read_count
                (cluster_offset single_cluster_dir_env 2)
                single_cluster_dir_env.sectors_per_cluster))
            none
            (dir_slot_offsets
              (single_cluster_dir_env.read_count
                (cluster_offset single_cluster_dir_env 2)
                single_cluster_dir_env.sectors_per_cluster))).filter
          fun e => e.First_Logical_Cluster ≠ 2
      else [] :=
  c6_self_reference_filter_on_produced_listings single_cluster_dir_env 2 1
    [⟨[66, 0, 0, 0, 0, 0, 0, 0], [0, 0, 0], 0, 0, 0, 0, 0, 5, 0⟩] []
    (by decide)

/-- C3: in both walks, after an iteration the loop test `0xFF7 > current`
decides continuation: a next-cluster value ≥ 0xFF7 (which for values decoded
from a byte-valued FAT means exactly [0xFF7, 0xFFF], since every decoded
entry is ≤ 0xFFF) terminates the walk with no further cluster visited, and a
value < 0xFF7 continues the walk at exactly that cluster. -/
theorem c3_termination_range_ends_walks
    (env : fatfs_env) (cur fuel : Nat) (hbytes : ∀ i, env.s_fat_table i < 256) :
    (0xFF7 ≤ (read_dir_cluster_step env cur).2.2 →
      fatfs_read_dir_loop env cur (fuel + 1) =
        some ((read_dir_cluster_step env cur).1, (read_dir_cluster_step env cur).2.1)) ∧
    ((read_dir_cluster_step env cur).2.2 < 0xFF7 →
      fatfs_read_dir_loop env cur (fuel + 1) =
        (fatfs_read_dir_loop env (read_dir_cluster_step env cur).2.2 fuel).map
          fun rest => ((read_dir_cluster_step env cur).1 ++ rest.1,
            (read_dir_cluster_step env cur).2.1 ++ rest.2)) ∧
    (0xFF7 ≤ (read_file_cluster_step env cur).2 →
      fatfs_read_file_loop env cur (fuel + 1) =
        some (read_file_cluster_step env cur).1) ∧
    ((read_file_cluster_step env cur).2 < 0xFF7 →
      fatfs_read_file_loop env cur (fuel + 1) =
        (fatfs_read_file_loop env (read_file_cluster_step env cur).2 fuel).map
          fun rest => (read_file_cluster_step env cur).1 ++ rest) ∧
    get_fat_entry_next env.s_fat_table cur ≤ 0xFFF := by
  refine ⟨fun h => ?_, fun h => ?_, fun h => ?_, fun h => ?_, ?_⟩
  · simp only [fatfs_read_dir_loop]
    rw [if_neg (by omega)]
  · simp only [fatfs_read_dir_loop]
    rw [if_pos (by omega)]
  · simp only [fatfs_read_file_loop]
    rw [if_neg (by omega)]
  · simp only [fatfs_read_file_loop]
    rw [if_pos (by omega)]
  · unfold get_fat_entry_next
    split
    · rw [decode_even_eq _ _ (hbytes (3 * cur / 2 + 1)) (hbytes (3 * cur / 2))]
      have h1 := hbytes (3 * cur / 2)
      omega
    · rw [decode_odd_eq _ _ (hbytes (3 * cur / 2 + 1)) (hbytes (3 * cur / 2))]
      have h1 := hbytes (3 * cur / 2 + 1)
      have h2 := hbytes (3 * cur / 2)
      omega

/-- C3 witness: in the two-cluster environment, the step at cluster 3 yields
next-cluster 0xFFF and the walk stops there; the step at cluster 2 yields
next-cluster 3 < 0xFF7 and the walk continues at cluster 3. -/
theorem c3_termination_range_ends_walks_witness :
    fatfs_read_dir_loop two_cluster_dir_env 3 1 =
      some ((read_dir_cluster_step two_cluster_dir_env 3).1,
        (read_dir_cluster_step two_cluster_dir_env 3).2.1) ∧
    fatfs_read_dir_loop two_cluster_dir_env 2 2 =
      (fatfs_read_dir_loop two_cluster_dir_env
          (read_dir_cluster_step two_cluster_dir_env 2).2.2 1).map
        fun rest => ((read_dir_cluster_step two_cluster_dir_env 2).1 ++ rest.1,
          (read_dir_cluster_step two_cluster_dir_env 2).2.1 ++ rest.2) :=
  ⟨(c3_termination_range_ends_walks two_cluster_dir_env 3 0
      fat_2_to_3_table_bytes).1 (by decide),
   (c3_termination_range_ends_walks two_cluster_dir_env 2 1
      fat_2_to_3_table_bytes).2.1 (by decide)⟩

/-- Environment in which every read is short (`kmc_read_multi_sector`
returns 0 bytes), over the floppy geometry, with FAT entry 2 pointing to 3. -/
def short_read_env : fatfs_env :=
  { bytes_per_sector := 512, sectors_per_cluster := 1,
    Cluster_starts_in_physical_of_the_data_area := 33,
    s_fat_table := fat_2_to_3_table,
    read_count := fun _ _ => 0,
    disk := fun _ => 0 }

/-- C4 counterexample: at cluster 2 of `short_read_env` the subdirectory
step produces no entries, but — contrary to the claim — the walk does not
advance to the next chain link (FAT entry 2 points to 3, yet the cluster
variable stays 2), and the loop does not terminate (still running after 9
iterations; the amended theorem below shows this holds for every fuel). -/
theorem c4_counterexample :
    (read_dir_cluster_step short_read_env 2).2.2 = 2 ∧
    get_fat_entry_next short_read_env.s_fat_table 2 = 3 ∧
    fatfs_read_dir_loop short_read_env 2 9 = none := by
  decide

/-- C4 (amended): when a subdirectory cluster read is short, the malformed
cluster contributes no entries and `SubDirectoryReadError` is reported, but
the walk is not advanced past it: `First_Logical_Directory_of_current` is
unchanged, so for a current cluster below 0xFF7 the loop retries the same
cluster forever (it terminates for no amount of fuel). -/
theorem c4_short_read_sub_dir_retries_same_cluster
    (env : fatfs_env) (cur : Nat)
    (hshort : env.read_count (cluster_offset env cur) env.sectors_per_cluster
      ≠ env.sectors_per_cluster * env.bytes_per_sector) :
    read_dir_cluster_step env cur =
      ([], [ERROR_CODE.ERROR_READING_SUB_DIRECTORY], cur) ∧
    (cur < 0xFF7 → ∀ fuel, fatfs_read_dir_loop env cur fuel = none) := by
  have hstep : read_dir_cluster_step env cur =
      ([], [ERROR_CODE.ERROR_READING_SUB_DIRECTORY], cur) := by
    unfold read_dir_cluster_step
    rw [if_neg hshort]
  refine ⟨hstep, fun hcur fuel => ?_⟩
  induction fuel with
  | zero => rfl
  | succ n ih =>
    simp only [fatfs_read_dir_loop, hstep]
    rw [if_pos hcur, ih]
    rfl

/-- C4 witness: the amended behaviour at the concrete short-read
environment. -/
theorem c4_short_read_sub_dir_retries_same_cluster_witness :
    read_dir_cluster_step short_read_env 2 =
      ([], [ERROR_CODE.ERROR_READING_SUB_DIRECTORY], 2) ∧
    fatfs_read_dir_loop short_read_env 2 3 = none := by
  have h := c4_short_read_sub_dir_retries_same_cluster short_read_env 2 (by decide)
  exact ⟨h.1, h.2 (by decide) 3⟩

/-- C5 counterexample: at cluster 2 of `short_read_env` the file-read step
appends no buffer (contrary to "appends the raw cluster buffer regardless"),
does not advance to the next chain link (FAT entry 2 points to 3, yet the
cluster variable stays 2), and the loop does not terminate (still running
after 9 iterations; the amended theorem below shows this holds for every
fuel). -/
theorem c5_counterexample :
    read_file_cluster_step short_read_env 2 = ([], 2) ∧
    get_fat_entry_next short_read_env.s_fat_table 2 = 3 ∧
    fatfs_read_file_loop short_read_env 2 9 = none := by
  decide

/-- C5 (amended): when a file cluster read is short, nothing is appended to
the cluster list for that iteration and `First_Logical_Cluster_of_current`
is unchanged (the short read is silent — no error is reported — but the loop
does not advance past it: for a current cluster below 0xFF7 it retries the
same cluster forever). -/
theorem c5_short_read_file_appends_nothing_and_retries
    (env : fatfs_env) (cur : Nat)
    (hshort : env.read_count (cluster_offset env cur) env.sectors_per_cluster
      ≠ env.bytes_per_sector * env.sectors_per_cluster) :
    read_file_cluster_step env cur = ([], cur) ∧
    (cur < 0xFF7 → ∀ fuel, fatfs_read_file_loop env cur fuel = none) := by
  have hstep : read_file_cluster_step env cur = ([], cur) := by
    unfold read_file_cluster_step
    rw [if_neg hshort]
  refine ⟨hstep, fun hcur fuel => ?_⟩
  induction fuel with
  | zero => rfl
  | succ n ih =>
    simp only [fatfs_read_file_loop, hstep]
    rw [if_pos hcur, ih]
    rfl

/-- C5 witness: the amended behaviour at the concrete short-read
environment. -/
theorem c5_short_read_file_appends_nothing_and_retries_witness :
    read_file_cluster_step short_read_env 2 = ([], 2) ∧
    fatfs_read_file_loop short_read_env 2 3 = none := by
  have h := c5_short_read_file_appends_nothing_and_retries short_read_env 2 (by decide)
  exact ⟨h.1, h.2 (by decide) 3⟩

/-- Tiny environment in which every read is full: 4-byte sectors, one sector
per cluster, every FAT byte 0xFF (every decoded FAT entry is 0xFFF), every
image byte 7. -/
def tiny_full_env : fatfs_env :=
  { bytes_per_sector := 4, sectors_per_cluster := 1,
    Cluster_starts_in_physical_of_the_data_area := 2,
    s_fat_table := fun _ => 255,
    read_count := fun _ _ => 4,
    disk := fun _ => 7 }

/-- C10: because the `do`-`while` of `fatfs_read_file` tests termination only
after the body, every starting cluster — including 0 and values already in
[0xFF7, 0xFFF] — has its cluster read by the first iteration, and whenever
that read is full, every terminating run's output starts with (and hence
contains at least) that first cluster's buffer. -/
theorem c10_first_cluster_always_processed
    (env : fatfs_env) (cur fuel : Nat) (l : List (List Nat))
    (hfull : env.read_count (cluster_offset env cur) env.sectors_per_cluster
      = env.bytes_per_sector * env.sectors_per_cluster)
    (hl : fatfs_read_file_loop env cur fuel = some l) :
    1 ≤ l.length ∧
    l.head? = some ((List.range (env.sectors_per_cluster * env.bytes_per_sector)).map
      (read_buffer env (cluster_offset env cur)
        (env.read_count (cluster_offset env cur) env.sectors_per_cluster))) := by
  have hstep : read_file_cluster_step env cur =
      ([(List.range (env.sectors_per_cluster * env.bytes_per_sector)).map
          (read_buffer env (cluster_offset env cur)
            (env.read_count (cluster_offset env cur) env.sectors_per_cluster))],
        get_fat_entry_next env.s_fat_table cur) := by
    unfold read_file_cluster_step
    rw [if_pos hfull]
  match fuel with
  | 0 => exact absurd hl (by simp [fatfs_read_file_loop])
  | fuel + 1 =>
    simp only [fatfs_read_file_loop, hstep] at hl
    by_cases hnext : 0xFF7 > get_fat_entry_next env.s_fat_table cur
    · rw [if_pos hnext] at hl
      obtain ⟨rest, _, hrest⟩ := Option.map_eq_some'.mp hl
      subst hrest
      exact ⟨by simp, by simp⟩
    · rw [if_neg hnext] at hl
      rw [← Option.some_inj.mp hl]
      exact ⟨by simp, by simp⟩

/-- C10 witness: starting at cluster 0xFF8 (already in the termination
range) with full reads, the walk still reads that cluster and returns its
buffer as the single element of the list. -/
theorem c10_first_cluster_always_processed_witness :
    1 ≤ ([[7, 7, 7, 7]] : List (List Nat)).length ∧
    ([[7, 7, 7, 7]] : List (List Nat)).head? =
      some ((List.range
          (tiny_full_env.sectors_per_cluster * tiny_full_env.bytes_per_sector)).map
        (read_buffer tiny_full_env (cluster_offset tiny_full_env 4088)
          (tiny_full_env.read_count (cluster_offset tiny_full_env 4088)
            tiny_full_env.sectors_per_cluster))) :=
  c10_first_cluster_always_processed tiny_full_env 4088 1 [[7, 7, 7, 7]]
    rfl (by decide)

end FATfs
